import Mathlib

/-!
Shallow embedding of `src/core/src/filesystem/content_type.rs` (Stump's
content-type classification core), together with theorems settling the
specification claims about it.

Strings are modelled with Lean `String`; Rust's `to_lowercase` is modelled
by `String.map Char.toLower` (all strings compared by the code are ASCII).
Byte buffers are `List Nat`.  The external byte sniffer (the `infer` crate)
is consumed only through its interface, so the composite resolvers are
parameterised by a sniffer function `List Nat → Option String`; a concrete
model of the PNG-signature behaviour is provided for evaluation.
-/

namespace Stump

/-- The closed vocabulary of content types, from the `ContentType` enum.
UNKNOWN is the `Default` variant. -/
inductive ContentType where
  | XHTML
  | XML
  | HTML
  | PDF
  | EPUB_ZIP
  | ZIP
  | COMIC_ZIP
  | RAR
  | COMIC_RAR
  | PNG
  | JPEG
  | WEBP
  | AVIF
  | GIF
  | TXT
  | UNKNOWN
  deriving DecidableEq, Repr, Fintype

/-- Model of Rust `str::to_lowercase` for the ASCII strings this core
compares (character-wise ASCII lowering). -/
def toLower (s : String) : String := String.mk (s.data.map Char.toLower)

/-- Model of Rust `str::starts_with`: p is a prefix of s. -/
def strStartsWith (s p : String) : Bool := s.data.take p.data.length == p.data

/-- Embeds `temporary_content_workarounds`: maps `opf` and `ncx` to XML,
everything else to UNKNOWN.  Note: it receives the string its caller passes,
unchanged. -/
def temporary_content_workarounds (ext : String) : ContentType :=
  if ext = "opf" ∨ ext = "ncx" then ContentType.XML else ContentType.UNKNOWN

/-- Embeds `ContentType::from_extension`: lowercase, match against the static
table, otherwise hand the original string to the workaround table. -/
def ContentType.from_extension (ext : String) : ContentType :=
  match toLower ext with
  | "xhtml" => ContentType.XHTML
  | "xml" => ContentType.XML
  | "html" => ContentType.HTML
  | "pdf" => ContentType.PDF
  | "epub" => ContentType.EPUB_ZIP
  | "zip" => ContentType.ZIP
  | "cbz" => ContentType.COMIC_ZIP
  | "rar" => ContentType.RAR
  | "cbr" => ContentType.COMIC_RAR
  | "png" => ContentType.PNG
  | "jpg" => ContentType.JPEG
  | "jpeg" => ContentType.JPEG
  | "webp" => ContentType.WEBP
  | "avif" => ContentType.AVIF
  | "gif" => ContentType.GIF
  | "txt" => ContentType.TXT
  | _ => temporary_content_workarounds ext

/-- Embeds `impl From<&str> for ContentType` (the MIME-string → variant
direction of the MIME codec): lowercase and match against the canonical
MIME strings, defaulting to UNKNOWN. -/
def ContentType.fromStr (s : String) : ContentType :=
  match toLower s with
  | "application/xhtml+xml" => ContentType.XHTML
  | "application/xml" => ContentType.XML
  | "text/html" => ContentType.HTML
  | "application/pdf" => ContentType.PDF
  | "application/epub+zip" => ContentType.EPUB_ZIP
  | "application/zip" => ContentType.ZIP
  | "application/vnd.comicbook+zip" => ContentType.COMIC_ZIP
  | "application/vnd.rar" => ContentType.RAR
  | "application/vnd.comicbook-rar" => ContentType.COMIC_RAR
  | "image/png" => ContentType.PNG
  | "image/jpeg" => ContentType.JPEG
  | "image/webp" => ContentType.WEBP
  | "image/avif" => ContentType.AVIF
  | "image/gif" => ContentType.GIF
  | _ => ContentType.UNKNOWN

/-- Embeds `impl std::fmt::Display for ContentType` (the variant → canonical
MIME string direction of the MIME codec). -/
def ContentType.toMimeString : ContentType → String
  | ContentType.XHTML => "application/xhtml+xml"
  | ContentType.XML => "application/xml"
  | ContentType.HTML => "text/html"
  | ContentType.PDF => "application/pdf"
  | ContentType.EPUB_ZIP => "application/epub+zip"
  | ContentType.ZIP => "application/zip"
  | ContentType.COMIC_ZIP => "application/vnd.comicbook+zip"
  | ContentType.RAR => "application/vnd.rar"
  | ContentType.COMIC_RAR => "application/vnd.comicbook-rar"
  | ContentType.PNG => "image/png"
  | ContentType.JPEG => "image/jpeg"
  | ContentType.WEBP => "image/webp"
  | ContentType.AVIF => "image/avif"
  | ContentType.GIF => "image/gif"
  | ContentType.TXT => "text/plain"
  | ContentType.UNKNOWN => "unknown"

/-- Embeds `ContentType::mime_type`, which is `self.to_string()`. -/
def ContentType.mime_type (c : ContentType) : String := c.toMimeString

/-- Embeds `ContentType::is_image`: `self.to_string().starts_with("image")`. -/
def ContentType.is_image (c : ContentType) : Bool :=
  strStartsWith c.toMimeString ("image")

/-- Embeds `ContentType::is_opds_legacy_image`. -/
def ContentType.is_opds_legacy_image (c : ContentType) : Bool :=
  c = ContentType.PNG ∨ c = ContentType.JPEG ∨ c = ContentType.GIF

/-- Embeds `ContentType::is_zip`. -/
def ContentType.is_zip (c : ContentType) : Bool :=
  c = ContentType.ZIP ∨ c = ContentType.COMIC_ZIP

/-- Embeds `ContentType::is_rar`. -/
def ContentType.is_rar (c : ContentType) : Bool :=
  c = ContentType.RAR ∨ c = ContentType.COMIC_RAR

/-- Embeds `ContentType::is_epub`. -/
def ContentType.is_epub (c : ContentType) : Bool :=
  c = ContentType.EPUB_ZIP

/-- Embeds `ContentType::extension`: the canonical file extension of each
variant, empty string for UNKNOWN. -/
def ContentType.extension : ContentType → String
  | ContentType.XHTML => "xhtml"
  | ContentType.XML => "xml"
  | ContentType.HTML => "html"
  | ContentType.PDF => "pdf"
  | ContentType.EPUB_ZIP => "epub"
  | ContentType.ZIP => "zip"
  | ContentType.COMIC_ZIP => "cbz"
  | ContentType.RAR => "rar"
  | ContentType.COMIC_RAR => "cbr"
  | ContentType.PNG => "png"
  | ContentType.JPEG => "jpg"
  | ContentType.WEBP => "webp"
  | ContentType.AVIF => "avif"
  | ContentType.GIF => "gif"
  | ContentType.TXT => "txt"
  | ContentType.UNKNOWN => ""

/-- A sniffer is the interface of the external `infer` crate: it maps a byte
buffer to the MIME string of a recognized binary signature, or none. -/
def Sniffer : Type := List Nat → Option String

/-- Modelled from the spec: the behaviour of the external byte sniffer
(`infer::get`, a third-party crate outside this repository) on the PNG
signature: a buffer beginning with the magic bytes `89 50 4E 47` sniffs as
`image/png`.  Only the PNG signature is modelled; other signatures the real
sniffer knows are out of scope of the claims, so all other buffers yield no
result here. -/
def pngSniffer : Sniffer := fun bytes =>
  if bytes.take 4 = [0x89, 0x50, 0x4E, 0x47] then some ("image/png") else none

/-- Embeds `infer_mime_from_bytes`: just the sniffer on the buffer (the Rust
code maps the sniffed type to its MIME string, which the sniffer interface
already returns). -/
def infer_mime_from_bytes (sniff : Sniffer) (bytes : List Nat) : Option String :=
  sniff bytes

/-- Embeds `ContentType::from_bytes`: sniff, parse the MIME string through
the codec, default to UNKNOWN. -/
def ContentType.from_bytes (sniff : Sniffer) (bytes : List Nat) : ContentType :=
  ((infer_mime_from_bytes sniff bytes).map fun mime =>
    ContentType.fromStr mime).getD ContentType.UNKNOWN

/-- The diagnostic record emitted by `tracing::warn!` on the fallback path of
`from_bytes_with_fallback`: it carries the byte buffer and the extension. -/
structure Diagnostic where
  bytes : List Nat
  ext : String
  deriving DecidableEq, Repr

/-- Embeds `ContentType::from_bytes_with_fallback` together with its logging
side effect: the second component is the elevated-severity diagnostic record,
emitted exactly when sniffing yields no match and the extension fallback is
engaged. -/
def ContentType.from_bytes_with_fallback (sniff : Sniffer) (bytes : List Nat)
    (ext : String) : ContentType × Option Diagnostic :=
  match infer_mime_from_bytes sniff bytes with
  | some mime => (ContentType.fromStr mime, none)
  | none => (ContentType.from_extension ext, some ⟨bytes, ext⟩)

/-- The outcome of the bounded filesystem read performed by
`infer::get_from_path`: either the bytes read, or an I/O error. -/
def ReadResult : Type := Except Unit (List Nat)

/-- A filesystem path, abstracted to what `from_path` consumes: the outcome
of reading a bounded byte prefix of the file, and what Rust
`Path::extension()` returns for the path (`none` when the path has no
extension). -/
structure PathModel where
  readResult : ReadResult
  ext : Option String

/-- Embeds `infer_mime`: on a successful read the bytes are sniffed; an I/O
error is swallowed (`Err(e) => None`), indistinguishable from a sniff miss. -/
def infer_mime (sniff : Sniffer) (r : ReadResult) : Option String :=
  match r with
  | Except.ok bytes => infer_mime_from_bytes sniff bytes
  | Except.error _ => none

/-- Embeds `ContentType::from_path`: sniff the file contents; on no result
fall back to `from_extension` on the path's own extension, a missing
extension defaulting to the empty string
(`path.extension().unwrap_or_default()`). -/
def ContentType.from_path (sniff : Sniffer) (p : PathModel) : ContentType :=
  ((infer_mime sniff p.readResult).map fun mime =>
    ContentType.fromStr mime).getD
    (ContentType.from_extension (p.ext.getD ("")))

/-- Modelled from the spec: Stump's own `ImageFormat` enum
(`src/core/src/filesystem/image.rs`, not included under src/); its variants
are exactly those matched exhaustively by `impl From<ImageFormat> for
ContentType`. -/
inductive ImageFormat where
  | Jpeg
  | Png
  | Webp
  | Avif
  deriving DecidableEq, Repr, Fintype

/-- The external `image` crate's format enumeration, restricted to the
variants this core produces (`image::ImageFormat`). -/
inductive ImageCrateFormat where
  | Png
  | Jpeg
  | WebP
  | Avif
  | Gif
  deriving DecidableEq, Repr, Fintype

/-- Modelled from the spec: `CoreError` (defined in the repository's error
module, not included under src/); only the `InternalError` variant carrying a
message string is used by this core. -/
inductive CoreError where
  | InternalError (msg : String)
  deriving DecidableEq, Repr

/-- Embeds the internal `unsupported_error` helper of the `TryFrom` impl. -/
def unsupported_error (unsupported_type : String) : CoreError :=
  CoreError.InternalError
    ("Cannot convert " ++ unsupported_type ++
      " into image::ImageFormat, not supported.")

/-- Embeds `impl From<ImageFormat> for ContentType`: total conversion from
Stump's image-format enum into the vocabulary. -/
def ContentType.fromImageFormat : ImageFormat → ContentType
  | ImageFormat.Jpeg => ContentType.JPEG
  | ImageFormat.Png => ContentType.PNG
  | ImageFormat.Webp => ContentType.WEBP
  | ImageFormat.Avif => ContentType.AVIF

/-- The Rust variant name of each `ContentType`, as it appears in the
`unsupported_error` message strings. -/
def ContentType.variant_name : ContentType → String
  | ContentType.XHTML => "XHTML"
  | ContentType.XML => "XML"
  | ContentType.HTML => "HTML"
  | ContentType.PDF => "PDF"
  | ContentType.EPUB_ZIP => "EPUB_ZIP"
  | ContentType.ZIP => "ZIP"
  | ContentType.COMIC_ZIP => "COMIC_ZIP"
  | ContentType.RAR => "RAR"
  | ContentType.COMIC_RAR => "COMIC_RAR"
  | ContentType.PNG => "PNG"
  | ContentType.JPEG => "JPEG"
  | ContentType.WEBP => "WEBP"
  | ContentType.AVIF => "AVIF"
  | ContentType.GIF => "GIF"
  | ContentType.TXT => "TXT"
  | ContentType.UNKNOWN => "UNKNOWN"

/-- Embeds `impl TryFrom<ContentType> for image::ImageFormat`: succeeds for
the five image variants, errors with a message naming the source variant
otherwise. -/
def ContentType.try_into_image_format : ContentType → Except CoreError ImageCrateFormat
  | ContentType.PNG => Except.ok ImageCrateFormat.Png
  | ContentType.JPEG => Except.ok ImageCrateFormat.Jpeg
  | ContentType.WEBP => Except.ok ImageCrateFormat.WebP
  | ContentType.AVIF => Except.ok ImageCrateFormat.Avif
  | ContentType.GIF => Except.ok ImageCrateFormat.Gif
  | ContentType.XHTML => Except.error (unsupported_error "ContentType::XHTML")
  | ContentType.XML => Except.error (unsupported_error "ContentType::XML")
  | ContentType.HTML => Except.error (unsupported_error "ContentType::HTML")
  | ContentType.PDF => Except.error (unsupported_error "ContentType::PDF")
  | ContentType.EPUB_ZIP => Except.error (unsupported_error "ContentType::EPUB_ZIP")
  | ContentType.ZIP => Except.error (unsupported_error "ContentType::ZIP")
  | ContentType.COMIC_ZIP => Except.error (unsupported_error "ContentType::COMIC_ZIP")
  | ContentType.RAR => Except.error (unsupported_error "ContentType::RAR")
  | ContentType.COMIC_RAR => Except.error (unsupported_error "ContentType::COMIC_RAR")
  | ContentType.TXT => Except.error (unsupported_error "ContentType::TXT")
  | ContentType.UNKNOWN => Except.error (unsupported_error "ContentType::UNKNOWN")

/-- The static extension table of `from_extension`, as an association list,
in source order (used by the reference resolver of spec section 4.1). -/
def extensionTable : List (String × ContentType) :=
  [("xhtml", ContentType.XHTML),
   ("xml", ContentType.XML),
   ("html", ContentType.HTML),
   ("pdf", ContentType.PDF),
   ("epub", ContentType.EPUB_ZIP),
   ("zip", ContentType.ZIP),
   ("cbz", ContentType.COMIC_ZIP),
   ("rar", ContentType.RAR),
   ("cbr", ContentType.COMIC_RAR),
   ("png", ContentType.PNG),
   ("jpg", ContentType.JPEG),
   ("jpeg", ContentType.JPEG),
   ("webp", ContentType.WEBP),
   ("avif", ContentType.AVIF),
   ("gif", ContentType.GIF),
   ("txt", ContentType.TXT)]

/-- The secondary workaround table, as an association list. -/
def workaroundTable : List (String × ContentType) :=
  [("opf", ContentType.XML), ("ncx", ContentType.XML)]

/-- The reference resolver written from the words of spec section 4.1 as the
claim reads them: normalize to lowercase; look up in the static table; if
unmatched, look up in the workaround table — with the WHOLE lookup, the
workaround table included, case-insensitive; anything still unmatched is
UNKNOWN. -/
def referenceResolverSpec (s : String) : ContentType :=
  match extensionTable.lookup (toLower s) with
  | some c => c
  | none => (workaroundTable.lookup (toLower s)).getD ContentType.UNKNOWN

/-- The reference resolver amended to what the code does: the lowercased
string is looked up in the static table, but the workaround table receives
the ORIGINAL string, so the workaround lookup is case-sensitive. -/
def referenceResolverAmended (s : String) : ContentType :=
  match extensionTable.lookup (toLower s) with
  | some c => c
  | none => (workaroundTable.lookup s).getD ContentType.UNKNOWN

/-!  Theorems settling the claims.  -/

/-- Claim C1, counterexample: the claimed variant → MIME string → variant
identity fails at TXT.  TXT's canonical MIME string is `text/plain`, but the
MIME codec's string → variant direction has no arm for `text/plain`, so the
round trip lands on UNKNOWN, not TXT. -/
theorem c1_mime_roundtrip_counterexample :
    ContentType.fromStr (ContentType.mime_type ContentType.TXT) = ContentType.UNKNOWN
    ∧ ContentType.TXT ≠ ContentType.UNKNOWN := by decide

/-- Claim C1, amended: for every variant other than UNKNOWN and TXT,
converting the variant to its canonical MIME string and parsing that string
back through the MIME codec is the identity. -/
theorem c1_mime_roundtrip_amended : ∀ (v : ContentType),
    v ≠ ContentType.UNKNOWN → v ≠ ContentType.TXT →
    ContentType.fromStr (ContentType.mime_type v) = v := by decide

/-- Claim C1, witness: the amended round-trip theorem applied at PNG. -/
theorem c1_mime_roundtrip_amended_witness :
    ContentType.fromStr (ContentType.mime_type ContentType.PNG) = ContentType.PNG :=
  c1_mime_roundtrip_amended ContentType.PNG (by decide) (by decide)

/-- Claim C2, counterexample: the lookup is not case-insensitive as a whole.
The workaround table receives the original, un-lowercased string, so
`from_extension "OPF"` is UNKNOWN although `from_extension "opf"` is XML; in
particular `from_extension` disagrees with the spec's reference resolver (in
which the whole lookup, the workaround table included, is case-insensitive)
at the input `OPF`. -/
theorem c2_case_insensitivity_counterexample :
    ContentType.from_extension ("OPF") = ContentType.UNKNOWN
    ∧ ContentType.from_extension (toLower ("OPF")) = ContentType.XML
    ∧ referenceResolverSpec ("OPF") = ContentType.XML
    ∧ ContentType.from_extension ("OPF") ≠ referenceResolverSpec ("OPF") := by decide

/-- Claim C2, amended: for every string s, `from_extension s` equals the
reference resolver amended so that only the static-table lookup is performed
on the lowercased string, while the workaround table (opf/ncx → XML) is
consulted with the original string, case-sensitively; anything unmatched,
the empty string included, resolves to UNKNOWN. -/
theorem c2_from_extension_refines_amended_reference (s : String) :
    ContentType.from_extension s = referenceResolverAmended s := by
  unfold ContentType.from_extension referenceResolverAmended temporary_content_workarounds
  split
  all_goals try (rename_i x heq; rw [heq]; rfl)
  rename_i hx1 hx2 hx3 hx4 hx5 hx6 hx7 hx8 hx9 hx10 hx11 hx12 hx13 hx14 hx15 hx16
  have e1 := beq_eq_false_iff_ne.mpr hx1
  have e2 := beq_eq_false_iff_ne.mpr hx2
  have e3 := beq_eq_false_iff_ne.mpr hx3
  have e4 := beq_eq_false_iff_ne.mpr hx4
  have e5 := beq_eq_false_iff_ne.mpr hx5
  have e6 := beq_eq_false_iff_ne.mpr hx6
  have e7 := beq_eq_false_iff_ne.mpr hx7
  have e8 := beq_eq_false_iff_ne.mpr hx8
  have e9 := beq_eq_false_iff_ne.mpr hx9
  have e10 := beq_eq_false_iff_ne.mpr hx10
  have e11 := beq_eq_false_iff_ne.mpr hx11
  have e12 := beq_eq_false_iff_ne.mpr hx12
  have e13 := beq_eq_false_iff_ne.mpr hx13
  have e14 := beq_eq_false_iff_ne.mpr hx14
  have e15 := beq_eq_false_iff_ne.mpr hx15
  have e16 := beq_eq_false_iff_ne.mpr hx16
  simp only [extensionTable, workaroundTable, List.lookup, e1, e2, e3, e4, e5,
    e6, e7, e8, e9, e10, e11, e12, e13, e14, e15, e16]
  by_cases h1 : s = "opf"
  · subst h1; rfl
  · by_cases h2 : s = "ncx"
    · subst h2; rfl
    · have f1 := beq_eq_false_iff_ne.mpr h1
      have f2 := beq_eq_false_iff_ne.mpr h2
      simp [f1, f2, h1, h2]

/-- Claim C3: for every non-UNKNOWN variant, taking its canonical extension
and resolving it with `from_extension` yields a variant with the same
canonical MIME string (the jpg/jpeg alias notwithstanding: JPEG's canonical
extension jpg resolves back to JPEG). -/
theorem c3_extension_roundtrip_mime : ∀ (v : ContentType),
    v ≠ ContentType.UNKNOWN →
    ContentType.mime_type (ContentType.from_extension (ContentType.extension v)) =
      ContentType.mime_type v := by decide

/-- Claim C3, witness: the extension round trip applied at JPEG, the aliased
variant. -/
theorem c3_extension_roundtrip_mime_witness :
    ContentType.mime_type (ContentType.from_extension (ContentType.extension ContentType.JPEG)) =
      ContentType.mime_type ContentType.JPEG :=
  c3_extension_roundtrip_mime ContentType.JPEG (by decide)

/-- Claim C4: for any sniffer honouring the PNG signature contract of the
byte-sniffing library (a buffer whose first four bytes are `89 50 4E 47`
sniffs as `image/png`), `from_bytes` maps any buffer beginning with the PNG
magic to PNG, and maps any buffer the sniffer does not recognize to UNKNOWN;
by its definition it consults no extension and returns a plain variant,
never an error. -/
theorem c4_from_bytes_png_and_unknown (sniff : Sniffer) (bytes : List Nat)
    (hpng : bytes.take 4 = [0x89, 0x50, 0x4E, 0x47] → sniff bytes = some ("image/png")) :
    (bytes.take 4 = [0x89, 0x50, 0x4E, 0x47] →
      ContentType.from_bytes sniff bytes = ContentType.PNG)
    ∧ (sniff bytes = none →
      ContentType.from_bytes sniff bytes = ContentType.UNKNOWN) := by
  constructor
  · intro h
    unfold ContentType.from_bytes infer_mime_from_bytes
    rw [hpng h]
    rfl
  · intro h
    unfold ContentType.from_bytes infer_mime_from_bytes
    rw [h]
    rfl

/-- Claim C4, witness: the `from_bytes` theorem applied to the modelled
sniffer and a concrete buffer beginning with the PNG magic bytes. -/
theorem c4_from_bytes_witness :
    (List.take 4 [0x89, 0x50, 0x4E, 0x47, 0x0D, 0x0A] = [0x89, 0x50, 0x4E, 0x47] →
      ContentType.from_bytes pngSniffer [0x89, 0x50, 0x4E, 0x47, 0x0D, 0x0A] = ContentType.PNG)
    ∧ (pngSniffer [0x89, 0x50, 0x4E, 0x47, 0x0D, 0x0A] = none →
      ContentType.from_bytes pngSniffer [0x89, 0x50, 0x4E, 0x47, 0x0D, 0x0A] = ContentType.UNKNOWN) :=
  c4_from_bytes_png_and_unknown pngSniffer [0x89, 0x50, 0x4E, 0x47, 0x0D, 0x0A] (by decide)

/-- Claim C5: `from_bytes_with_fallback` first sniffs the bytes; when the
sniffer yields a MIME string the result is that string parsed through the
MIME codec and no diagnostic is emitted; when the sniffer yields no match
the result is `from_extension` of the supplied extension and the
elevated-severity diagnostic record carrying the bytes and the extension is
emitted. -/
theorem c5_from_bytes_with_fallback_behavior (sniff : Sniffer) (bytes : List Nat)
    (ext : String) :
    (∀ mime, sniff bytes = some mime →
      ContentType.from_bytes_with_fallback sniff bytes ext =
        (ContentType.fromStr mime, none))
    ∧ (sniff bytes = none →
      ContentType.from_bytes_with_fallback sniff bytes ext =
        (ContentType.from_extension ext, some ⟨bytes, ext⟩)) := by
  constructor
  · intro mime h
    unfold ContentType.from_bytes_with_fallback infer_mime_from_bytes
    rw [h]
  · intro h
    unfold ContentType.from_bytes_with_fallback infer_mime_from_bytes
    rw [h]

/-- Claim C5, witness: unrecognizable bytes with supplied extension png fall
back to PNG and emit the diagnostic record. -/
theorem c5_from_bytes_with_fallback_witness :
    ContentType.from_bytes_with_fallback pngSniffer [0, 1] ("png") =
      (ContentType.PNG, some ⟨[0, 1], "png"⟩) :=
  ((c5_from_bytes_with_fallback_behavior pngSniffer [0, 1] ("png")).2 (by decide)).trans
    (by decide)

/-- Claim C6: `from_path` surfaces no error: on an I/O failure of the
bounded read, or on a sniff with no signature match, it falls back to
`from_extension` on the path's own extension (a missing extension treated as
the empty string, which resolves to UNKNOWN); the I/O-failure outcome is
indistinguishable from the no-signature-match outcome. -/
theorem c6_from_path_error_masking (sniff : Sniffer) (p : PathModel) :
    (∀ e, p.readResult = Except.error e →
      ContentType.from_path sniff p = ContentType.from_extension (p.ext.getD ("")))
    ∧ (∀ bytes, p.readResult = Except.ok bytes → sniff bytes = none →
      ContentType.from_path sniff p = ContentType.from_extension (p.ext.getD ("")))
    ∧ (∀ bytes, p.readResult = Except.ok bytes → sniff bytes = none →
      ContentType.from_path sniff p = ContentType.from_path sniff ⟨Except.error (), p.ext⟩)
    ∧ (p.ext = none → infer_mime sniff p.readResult = none →
      ContentType.from_path sniff p = ContentType.UNKNOWN) := by
  refine ⟨?_, ?_, ?_, ?_⟩
  · intro e h
    simp [ContentType.from_path, infer_mime, h]
  · intro bytes hr hs
    simp [ContentType.from_path, infer_mime, infer_mime_from_bytes, hr, hs]
  · intro bytes hr hs
    simp [ContentType.from_path, infer_mime, infer_mime_from_bytes, hr, hs]
  · intro he hm
    unfold ContentType.from_path
    rw [hm, he]
    rfl

/-- Claim C6, witness: a path whose read fails with an I/O error and that
has no extension of its own resolves to UNKNOWN. -/
theorem c6_from_path_witness :
    ContentType.from_path pngSniffer ⟨Except.error (), none⟩ = ContentType.UNKNOWN :=
  (c6_from_path_error_masking pngSniffer ⟨Except.error (), none⟩).2.2.2 rfl rfl

/-- Claim C7: `is_image` holds exactly for PNG, JPEG, WEBP, AVIF and GIF —
equivalently, exactly when the variant's canonical MIME string begins with
`image/` — and so is false for every archive/document variant, for TXT and
for UNKNOWN. -/
theorem c7_is_image_characterization : ∀ (v : ContentType),
    (ContentType.is_image v = true ↔
      (v = ContentType.PNG ∨ v = ContentType.JPEG ∨ v = ContentType.WEBP ∨
        v = ContentType.AVIF ∨ v = ContentType.GIF))
    ∧ ContentType.is_image v = strStartsWith (ContentType.mime_type v) ("image/") := by
  decide

/-- Claim C8: `is_opds_legacy_image` holds exactly for PNG, JPEG and GIF; in
particular it is false for WEBP and AVIF although `is_image` holds for both. -/
theorem c8_is_opds_legacy_image_characterization :
    (∀ (v : ContentType), ContentType.is_opds_legacy_image v = true ↔
      (v = ContentType.PNG ∨ v = ContentType.JPEG ∨ v = ContentType.GIF))
    ∧ ContentType.is_opds_legacy_image ContentType.WEBP = false
    ∧ ContentType.is_image ContentType.WEBP = true
    ∧ ContentType.is_opds_legacy_image ContentType.AVIF = false
    ∧ ContentType.is_image ContentType.AVIF = true := by decide

/-- Claim C9: converting a `ContentType` into the external image-format
classification succeeds exactly for PNG, JPEG, WEBP, AVIF and GIF; every
other variant fails with an error whose message names the rejected variant;
and the reverse conversion from the image-format enum is total, always
yielding a proper (non-UNKNOWN) vocabulary member. -/
theorem c9_interop_adapter (v : ContentType) :
    ((ContentType.try_into_image_format v).isOk = true ↔
      (v = ContentType.PNG ∨ v = ContentType.JPEG ∨ v = ContentType.WEBP ∨
        v = ContentType.AVIF ∨ v = ContentType.GIF))
    ∧ (¬(v = ContentType.PNG ∨ v = ContentType.JPEG ∨ v = ContentType.WEBP ∨
        v = ContentType.AVIF ∨ v = ContentType.GIF) →
      ContentType.try_into_image_format v =
        Except.error (unsupported_error ("ContentType::" ++ ContentType.variant_name v)))
    ∧ (∀ (f : ImageFormat), ContentType.fromImageFormat f ≠ ContentType.UNKNOWN) := by
  refine ⟨by cases v <;> decide, ?_, by intro f; cases f <;> decide⟩
  intro h
  cases v <;> first
    | exact absurd (by decide) h
    | rfl

/-- Claim C9, witness: the interop theorem applied at ZIP, which fails with
an error naming ContentType::ZIP. -/
theorem c9_interop_adapter_witness :
    ContentType.try_into_image_format ContentType.ZIP =
      Except.error (unsupported_error ("ContentType::" ++
        ContentType.variant_name ContentType.ZIP)) :=
  (c9_interop_adapter ContentType.ZIP).2.1 (by decide)

/-- Claim C10: UNKNOWN's MIME string is the literal `unknown`, which contains
no slash and hence is not a well-formed MIME type, and parsing `unknown`
back through the MIME codec yields UNKNOWN. -/
theorem c10_unknown_mime_string :
    ContentType.mime_type ContentType.UNKNOWN = "unknown"
    ∧ '/' ∉ (ContentType.mime_type ContentType.UNKNOWN).data
    ∧ ContentType.fromStr (ContentType.mime_type ContentType.UNKNOWN) =
        ContentType.UNKNOWN := by decide

end Stump
